import Mathlib

/-!
Verification of the Tree-of-Thoughts Agent (ToTA) repository against its
natural-language specification.

The development shallowly embeds the Python sources:
  - src/utils/parsing.py           (extract_thoughts and its regex scanning)
  - src/tota_core/llm_interaction.py   (call_llm retry loop and response parsing)
  - src/tota_core/function_implementations.py  (log rendering, schema, redaction)
  - src/main.py                    (run_tota_agent wrapper)
Strings are modelled by Lean String, Python dicts by association lists,
JSON values by an inductive Json type, and the ambient clock by an explicit
timestamp parameter.
-/

namespace ToTA

/-! ## A small JSON value model (for tool arguments and schemas) -/

inductive Json where
  | null : Json
  | bool (b : Bool) : Json
  | num (q : ℚ) : Json
  | str (s : String) : Json
  | arr (items : List Json) : Json
  | obj (fields : List (String × Json)) : Json

/-- Lookup of a key in a JSON object (first binding wins, as in a Python dict
whose keys are distinct). -/
def Json.get? : Json → String → Option Json
  | .obj fields, k => (fields.find? (fun p => p.1 = k)).map Prod.snd
  | _, _ => none

/-! ## Decimal rendering of natural numbers

Python renders `thought_num` with `f"...{thought_num}"`, i.e. `str(int)`.
`natDecimal` is the standard base-10 rendering (fuel-driven so that it
reduces in the kernel); `pyInt` models `int(...)` on a string of digits. -/

def natDecimalAux : Nat → Nat → List Char → List Char
  | 0, _, acc => acc
  | fuel + 1, n, acc =>
    if n < 10 then Nat.digitChar n :: acc
    else natDecimalAux fuel (n / 10) (Nat.digitChar (n % 10) :: acc)

def natDecimal (n : Nat) : String :=
  String.mk (natDecimalAux (n + 1) n [])

/-- Numeric value of a list of decimal digit characters (Python `int` on a
string of digits; also the folding step of decimal parsing). -/
def digitsVal (init : Nat) (l : List Char) : Nat :=
  l.foldl (fun a c => 10 * a + (c.toNat - 48)) init

def pyInt (s : String) : Nat := digitsVal 0 s.data

/-! ## Embedding of src/utils/parsing.py : extract_thoughts

The two thought patterns
  `(?:^|\n)(\d+)[.:]\s+(.*?)(?=\n*(?:\d+[.:]|\Z))`
  `(?:^|\n)Thought[ \t]+(\d+)[.:][ \t]+(.*?)(?=\n*(?:Thought[ \t]+\d+[.:]|\Z))`
with `re.DOTALL` are embedded as character-list scanners with the semantics
of `re.findall`: leftmost matching, lazy second group stopping at the first
position where the lookahead holds, resumption after a match, one-character
advance after a failed attempt. Whitespace classes are the ASCII ones. -/

/-- Python regex `\s` (ASCII range). -/
def isPySpace (c : Char) : Bool :=
  c == ' ' || c == '\t' || c == '\n' || c == '\r' || c == '\x0b' || c == '\x0c'

def isBlankOrTab (c : Char) : Bool := c == ' ' || c == '\t'

/-- Python `str.strip()`. -/
def pyStrip (s : String) : String :=
  String.mk (((s.data.dropWhile isPySpace).reverse.dropWhile isPySpace).reverse)

/-- `\d+[.:]` holds at the head of the input. -/
def startsNumPunct (s : List Char) : Bool :=
  let ds := s.takeWhile Char.isDigit
  let r := s.dropWhile Char.isDigit
  !ds.isEmpty && (r.head? == some '.' || r.head? == some ':')

/-- The lookahead `(?=\n*(?:\d+[.:]|\Z))` holds at this position. -/
def lookahead1 : List Char → Bool
  | [] => true
  | c :: rest => startsNumPunct (c :: rest) || (c == '\n' && lookahead1 rest)

/-- Lazy `(.*?)` up to the first position where `lookahead1` holds: returns
the captured prefix and the rest of the input. -/
def lazyCapture1 : List Char → List Char × List Char
  | [] => ([], [])
  | c :: rest =>
    if lookahead1 (c :: rest) then ([], c :: rest)
    else
      let (cap, r) := lazyCapture1 rest
      (c :: cap, r)

/-- One attempt of `(\d+)[.:]\s+(.*?)(?=...)` at the current position, the
`(?:^|\n)` anchor having been consumed by the scanner. Returns the two
capture groups and the remaining input. -/
def matchCore1 (s : List Char) : Option (String × String × List Char) :=
  let ds := s.takeWhile Char.isDigit
  let r1 := s.dropWhile Char.isDigit
  if ds.isEmpty then none
  else
    match r1 with
    | c :: r2 =>
      if c == '.' || c == ':' then
        let ws := r2.takeWhile isPySpace
        let r3 := r2.dropWhile isPySpace
        if ws.isEmpty then none
        else
          let (cap, rest) := lazyCapture1 r3
          some (String.mk ds, String.mk cap, rest)
      else none
    | [] => none

/-- `Thought[ \t]+\d+[.:]` holds at the head of the input. -/
def startsThoughtNum (s : List Char) : Bool :=
  "Thought".data.isPrefixOf s &&
    (let r0 := s.drop 7
     let sp := r0.takeWhile isBlankOrTab
     let r1 := r0.dropWhile isBlankOrTab
     let ds := r1.takeWhile Char.isDigit
     let r2 := r1.dropWhile Char.isDigit
     !sp.isEmpty && (!ds.isEmpty && (r2.head? == some '.' || r2.head? == some ':')))

/-- The lookahead `(?=\n*(?:Thought[ \t]+\d+[.:]|\Z))` holds here. -/
def lookahead2 : List Char → Bool
  | [] => true
  | c :: rest => startsThoughtNum (c :: rest) || (c == '\n' && lookahead2 rest)

/-- Lazy `(.*?)` up to the first position where `lookahead2` holds. -/
def lazyCapture2 : List Char → List Char × List Char
  | [] => ([], [])
  | c :: rest =>
    if lookahead2 (c :: rest) then ([], c :: rest)
    else
      let (cap, r) := lazyCapture2 rest
      (c :: cap, r)

/-- One attempt of `Thought[ \t]+(\d+)[.:][ \t]+(.*?)(?=...)` at the current
position, the `(?:^|\n)` anchor having been consumed by the scanner. -/
def matchCore2 (s : List Char) : Option (String × String × List Char) :=
  if "Thought".data.isPrefixOf s then
    let r0 := s.drop 7
    let sp1 := r0.takeWhile isBlankOrTab
    let r1 := r0.dropWhile isBlankOrTab
    if sp1.isEmpty then none
    else
      let ds := r1.takeWhile Char.isDigit
      let r2 := r1.dropWhile Char.isDigit
      if ds.isEmpty then none
      else
        match r2 with
        | c :: r3 =>
          if c == '.' || c == ':' then
            let sp2 := r3.takeWhile isBlankOrTab
            let r4 := r3.dropWhile isBlankOrTab
            if sp2.isEmpty then none
            else
              let (cap, rest) := lazyCapture2 r4
              some (String.mk ds, String.mk cap, rest)
          else none
        | [] => none
  else none

/-- The `re.findall` scanner for a pattern anchored by `(?:^|\n)`: at
position 0 first the zero-width `^` branch, then a consumed `'\n'`; resume
after a successful match; advance one character after a failed attempt.
Every step consumes at least one character, so fuel exceeding the input
length never runs out. -/
def scanAux (mc : List Char → Option (String × String × List Char)) :
    Nat → Bool → List Char → List (String × String)
  | 0, _, _ => []
  | _ + 1, _, [] => []
  | fuel + 1, true, s =>
    (match mc s with
     | some (n, cap, rest) => (n, cap) :: scanAux mc fuel false rest
     | none =>
       match s with
       | '\n' :: r =>
         (match mc r with
          | some (n, cap, rest) => (n, cap) :: scanAux mc fuel false rest
          | none => scanAux mc fuel false r)
       | _ :: r => scanAux mc fuel false r
       | [] => [])
  | fuel + 1, false, s =>
    (match s with
     | '\n' :: r =>
       (match mc r with
        | some (n, cap, rest) => (n, cap) :: scanAux mc fuel false rest
        | none => scanAux mc fuel false r)
     | _ :: r => scanAux mc fuel false r
     | [] => [])

/-- `re.findall` of the numbered-list pattern over the whole content. -/
def findall1 (content : String) : List (String × String) :=
  scanAux matchCore1 (content.data.length + 1) true content.data

/-- `re.findall` of the `Thought N:` pattern over the whole content. -/
def findall2 (content : String) : List (String × String) :=
  scanAux matchCore2 (content.data.length + 1) true content.data

/-- Split a character list at the first occurrence of a literal: the text
before the literal and the rest after it (leftmost `re.search` on a pattern
that starts with this literal). -/
def splitAtLit (lit : List Char) : List Char → Option (List Char × List Char)
  | [] => if lit.isEmpty then some ([], []) else none
  | c :: rest =>
    if lit.isPrefixOf (c :: rest) then some ([], (c :: rest).drop lit.length)
    else
      match splitAtLit lit rest with
      | some (before, after) => some (c :: before, after)
      | none => none

/-- The lookahead `(?=\n\n|\Z)` holds at this position. -/
def lookaheadNN (s : List Char) : Bool :=
  match s with
  | [] => true
  | '\n' :: '\n' :: _ => true
  | _ => false

/-- Lazy `(.*?)` up to the first blank line or the end of the input. -/
def lazyCaptureNN : List Char → List Char
  | [] => []
  | c :: rest => if lookaheadNN (c :: rest) then [] else c :: lazyCaptureNN rest

/-- `re.search` of a rationale pattern `LIT\s*(.*?)(?=\n\n|\Z)` on the
thought text: at the first occurrence of the literal, skip the whitespace
run after it and capture the shortest stretch up to a blank line or the
end. Returns the text before the match and the captured group, as used by
`re.split(..., maxsplit=1)` and `group(1)`. -/
def searchRationale (lit : List Char) (s : List Char) :
    Option (List Char × List Char) :=
  match splitAtLit lit s with
  | some (before, rest) => some (before, lazyCaptureNN (rest.dropWhile isPySpace))
  | none => none

structure Thought where
  thought_id : String
  description : String
  generation_rationale : String
deriving DecidableEq

def ratLit1 : List Char := "**Rationale**:".data
def ratLit2 : List Char := "Rationale:".data
def thoughtCleanupLit : List Char := "**Thought**:".data

/-- The rationale-splitting loop of `extract_thoughts` on the stripped
thought text: the description part and the rationale, the first matching
rationale pattern winning; `(full_text, "")` when neither occurs. -/
def descAndRationale (full_text : String) : String × String :=
  match searchRationale ratLit1 full_text.data with
  | some (before, cap) => (pyStrip (String.mk before), pyStrip (String.mk cap))
  | none =>
    match searchRationale ratLit2 full_text.data with
    | some (before, cap) => (pyStrip (String.mk before), pyStrip (String.mk cap))
    | none => (full_text, "")

/-- Build one thought record from a scanner match `(number, text)`: `int` on
the number group, `strip` on the text, split off a rationale section when
one of the two rationale patterns occurs, remove a leading `**Thought**:`
marker, and assemble `thought_id = node_id ++ "-t" ++ thought_num`. -/
def buildThought (node_id : String) (m : String × String) : Thought :=
  let thought_num := pyInt m.1
  let full_text := pyStrip m.2
  let dr := descAndRationale full_text
  let thought_desc := dr.1
  let cleaned :=
    if thoughtCleanupLit.isPrefixOf thought_desc.data then
      String.mk ((thought_desc.data.drop thoughtCleanupLit.length).dropWhile isPySpace)
    else thought_desc
  { thought_id := node_id ++ "-t" ++ natDecimal thought_num
    description := pyStrip cleaned
    generation_rationale := dr.2 }

/-- Embedding of `extract_thoughts` (src/utils/parsing.py): run both thought
patterns over the content in turn and map every match to a thought record.
A total function: on text with no recognisable structure both scans are
empty and so is the result. -/
def extract_thoughts (content : String) (node_id : String) : List Thought :=
  (if (findall1 content).isEmpty then []
   else (findall1 content).map (buildThought node_id)) ++
    (if (findall2 content).isEmpty then []
     else (findall2 content).map (buildThought node_id))

/-- The thought numbers parsed from the scanner matches, across both
patterns, in the output order of `extract_thoughts`. -/
def parsedThoughtNums (content : String) : List Nat :=
  ((if (findall1 content).isEmpty then [] else findall1 content) ++
    (if (findall2 content).isEmpty then [] else findall2 content)).map
    (fun m => pyInt m.1)

/-! ## Embedding of src/tota_core/llm_interaction.py : call_llm -/

/-- The input payload of a tool-use content block. `dict` is the
`isinstance(input, dict)` case, taken as-is; `nonDict` carries the result
of `json.loads` on a non-dict payload (`none` when decoding fails, which
the source turns into a raised `ValueError`). -/
inductive ToolInput where
  | dict (j : Json) : ToolInput
  | nonDict (parsed : Option Json) : ToolInput

/-- One content block of an oracle response. -/
inductive ContentItem where
  | text (s : String) : ContentItem
  | toolUse (name : String) (input : ToolInput) : ContentItem
  | other : ContentItem

def ContentItem.isToolUse : ContentItem → Bool
  | .toolUse _ _ => true
  | _ => false

/-- The dictionary `call_llm` hands back to its caller: a function call, a
text response, or the unreachable post-loop error dictionary. A raised
Python exception is the `.error` side of `Except` instead. -/
inductive LLMResult where
  | functionCall (name : String) (arguments : Json) : LLMResult
  | textResult (content : String) : LLMResult
  | errorResult (content : String) : LLMResult

/-- The keyword arguments of `call_llm` (the prompt variables), modelled as
a Python dict of JSON values. -/
abbrev KwArgs := List (String × Json)

/-- `kwargs.get(k, default)`. -/
def kwGet (kw : KwArgs) (k : String) (dflt : Json) : Json :=
  match kw.find? (fun p => p.1 = k) with
  | some p => p.2
  | none => dflt

/-- The synthesized fallback function call built when a forced function was
expected but the response carries no tool use. -/
def fallbackFunctionArgs (kw : KwArgs) : Json :=
  .obj [
    ("node_id", kwGet kw "node_id" (.str "unknown")),
    ("node_sub_problem", kwGet kw "current_sub_problem" (.str "unknown")),
    ("generated_thoughts", kwGet kw "thoughts" (.arr [])),
    ("llm_decision", .obj [
      ("action_type", .str "Backtrack"),
      ("decision_rationale",
        .str "Function calling failed, fallback to backtracking.")])]

/-- The first tool-use block of the response content (the loop returns on
the first one it sees). -/
def firstToolUse : List ContentItem → Option (String × ToolInput)
  | [] => none
  | .toolUse name input :: _ => some (name, input)
  | _ :: rest => firstToolUse rest

/-- Concatenation of the text blocks of the response content. -/
def textConcat (content : List ContentItem) : String :=
  content.foldl (fun acc item =>
    match item with
    | .text s => acc ++ s
    | _ => acc) ""

/-- The response-parsing stage of `call_llm` on a successfully transported
response: tool-use extraction (JSON-decode failure raised), the
forced-function fallback, the missing-function-call error, and the text
path. Raised exceptions — all re-raised as `API error: ...` by the generic
handler — are the `.error` side. -/
def parseResponse (expect_function_call : Bool)
    (force_function_name : Option String) (kw : KwArgs)
    (content : List ContentItem) : Except String LLMResult :=
  if expect_function_call then
    match firstToolUse content with
    | some (name, input) =>
      match input with
      | .dict j => .ok (.functionCall name j)
      | .nonDict (some j) => .ok (.functionCall name j)
      | .nonDict none => .error "API error: Invalid JSON in function arguments"
    | none =>
      match force_function_name with
      | some fname => .ok (.functionCall fname (fallbackFunctionArgs kw))
      | none =>
        .error "API error: Expected function call in response, but none was found"
  else
    .ok (.textResult (textConcat content))

/-- The transport outcome of one attempt of `client.messages.create`: a
response, a transient failure (`requests` exception or `TimeoutError`), or
any other exception. -/
inductive AttemptOutcome where
  | ok (content : List ContentItem) : AttemptOutcome
  | transient (msg : String) : AttemptOutcome
  | fatal (msg : String) : AttemptOutcome

def AttemptOutcome.isTransient : AttemptOutcome → Bool
  | .transient _ => true
  | _ => false

/-- The retry loop of `call_llm` (`for attempt in range(1, retry_attempts + 1)`).
`attempt` is the 1-based loop counter, `remaining` the number of iterations
left (`retry_attempts + 1 - attempt` at every call); the recursion is on
`remaining`, and `remaining = 0` is the fall-through after the loop. On a
transient failure of an attempt below the last, the loop sleeps
`2 ^ attempt` seconds and retries; on the last it raises. Returns the call
result with the list of back-off waits performed, in seconds. -/
def callLLMLoop (oracle : Nat → AttemptOutcome) (expect_function_call : Bool)
    (force_function_name : Option String) (kw : KwArgs)
    (retry_attempts : Nat) : Nat → Nat → Except String LLMResult × List Nat
  | _, 0 => (.ok (.errorResult "Unexpected error in LLM call"), [])
  | attempt, remaining + 1 =>
    match oracle attempt with
    | .ok content =>
      (parseResponse expect_function_call force_function_name kw content, [])
    | .transient msg =>
      if attempt < retry_attempts then
        let r := callLLMLoop oracle expect_function_call force_function_name
          kw retry_attempts (attempt + 1) remaining
        (r.1, 2 ^ attempt :: r.2)
      else (.error ("API error: " ++ msg), [])
    | .fatal msg => (.error ("API error: " ++ msg), [])

/-- Embedding of `call_llm` from the retry loop on (the prompt-formatting
and request-assembly stages have no effect on the returned value and are
not modelled). `oracle k` is the transport outcome of attempt `k`. -/
def call_llm (oracle : Nat → AttemptOutcome) (expect_function_call : Bool)
    (force_function_name : Option String) (kw : KwArgs)
    (retry_attempts : Nat) : Except String LLMResult × List Nat :=
  callLLMLoop oracle expect_function_call force_function_name kw
    retry_attempts 1 retry_attempts

/-! ## Embedding of src/tota_core/function_implementations.py -/

/-- A thought dictionary as consumed by `log_node_details`; each field is
optional, mirroring `thought.get(key, default)`. Scores are rationals. -/
structure ThoughtRec where
  thought_id : Option String
  description : Option String
  generation_rationale : Option String
  evaluation_score : Option ℚ
  evaluation_justification : Option String

/-- An `llm_decision` dictionary as consumed by `log_node_details`;
`selected_thought_id = none` covers both an absent key and `None`. -/
structure DecisionRec where
  action_type : Option String
  selected_thought_id : Option String
  decision_rationale : Option String

/-- Python `f"{x:.2f}"` on a decimal score (nearest hundredth). -/
def formatFixed2 (q : ℚ) : String :=
  let n : ℤ := round (q * 100)
  let sign := if n < 0 then "-" else ""
  let m := n.natAbs
  let frac := m % 100
  sign ++ natDecimal (m / 100) ++ "." ++
    (if frac < 10 then "0" ++ natDecimal frac else natDecimal frac)

/-- The per-thought block of the markdown content of `log_node_details`. -/
def renderThought (t : ThoughtRec) : String :=
  let thought_id := t.thought_id.getD "unknown-id"
  let description := t.description.getD ""
  let generation_rationale := t.generation_rationale.getD ""
  let evaluation_score := t.evaluation_score.getD 0
  let evaluation_justification := t.evaluation_justification.getD ""
  "**Thought " ++ thought_id ++ ":** " ++ description ++
    "\n- **Generation Rationale:** " ++ generation_rationale ++
    "\n- **Evaluation Score:** " ++ formatFixed2 evaluation_score ++
    "\n- **Evaluation Justification:** " ++ evaluation_justification ++ "\n\n"

/-- Python truthiness of the `selected_thought_id` value: a string is
truthy iff non-empty; an absent key or `None` is falsy. -/
def selTruthy : Option String → Bool
  | none => false
  | some s => !s.isEmpty

/-- The decision block of the markdown content: the action line, the
selected-thought line guarded by `if selected_thought_id:`, the rationale
line and the separator. -/
def renderDecisionSection (dec : DecisionRec) : String :=
  let action_type := dec.action_type.getD "Unknown"
  let decision_rationale := dec.decision_rationale.getD ""
  "#### Decision\n- **Action:** " ++ action_type ++ "\n" ++
    (if selTruthy dec.selected_thought_id then
      "- **Selected Thought:** " ++ dec.selected_thought_id.getD "" ++ "\n"
     else "") ++
    "- **Rationale:** " ++ decision_rationale ++ "\n\n---\n\n"

/-- The part of the markdown content preceding the decision block: node
header, sub-problem quote and thought blocks. -/
def renderNodePreamble (timestamp node_id node_sub_problem : String)
    (generated_thoughts : List ThoughtRec) : String :=
  "\n### Node: " ++ node_id ++ " (" ++ timestamp ++
    ")\n\n#### Sub-Problem\n> " ++ node_sub_problem ++
    "\n\n#### Generated Thoughts\n\n" ++
    String.join (generated_thoughts.map renderThought)

/-- The whole markdown content appended by one `log_node_details` call. -/
def renderNodeDetails (timestamp node_id node_sub_problem : String)
    (generated_thoughts : List ThoughtRec) (llm_decision : DecisionRec) :
    String :=
  "\n### Node: " ++ node_id ++ " (" ++ timestamp ++
    ")\n\n#### Sub-Problem\n> " ++ node_sub_problem ++
    "\n\n#### Generated Thoughts\n\n" ++
    String.join (generated_thoughts.map renderThought) ++
    renderDecisionSection llm_decision

/-- Embedding of `log_node_details`: the log file as a string state; the
call opens the file in append mode, writes the rendered content, and
returns `None` (unit). -/
def log_node_details (timestamp node_id node_sub_problem : String)
    (generated_thoughts : List ThoughtRec) (llm_decision : DecisionRec)
    (log : String) : Unit × String :=
  ((), log ++ renderNodeDetails timestamp node_id node_sub_problem
    generated_thoughts llm_decision)

/-- Ordering of `(key, value)` pairs as Python `sorted` orders tuples. -/
def pairLe (p q : String × String) : Bool :=
  if p.1 = q.1 then !decide (q.2 < p.2) else decide (p.1 < q.1)

def insertPair (x : String × String) :
    List (String × String) → List (String × String)
  | [] => [x]
  | y :: ys => if pairLe x y then x :: y :: ys else y :: insertPair x ys

/-- Python `sorted` on the items of the configuration dict. -/
def sortPairs : List (String × String) → List (String × String)
  | [] => []
  | x :: xs => insertPair x (sortPairs xs)

/-- Replacement of the value stored under `llm_api_key`: two configuration
dicts differ only in the value of that key exactly when one is the image
of the other under some `updApiKey v`. -/
def updApiKey (v : String) (p : String × String) : String × String :=
  if p.1 = "llm_api_key" then (p.1, v) else p

/-- The redaction step of `initialize_log_file`: a present `llm_api_key`
entry is overwritten with the literal `***REDACTED***`. The configuration
dict is an association list with distinct keys, values already rendered to
strings. -/
def redactConfig (config_dict : List (String × String)) :
    List (String × String) :=
  if (config_dict.map Prod.fst).contains "llm_api_key" then
    config_dict.map (fun p =>
      if p.1 = "llm_api_key" then (p.1, "***REDACTED***") else p)
  else config_dict

/-- Embedding of `initialize_log_file`: the header written to the fresh
log file (mode `w`), with the clock passed explicitly. -/
def initialize_log_file (task_description : String) (timestamp : String)
    (config_dict : List (String × String)) : String :=
  "# Tree-of-Thoughts Agent Run\n\n**Timestamp:** " ++ timestamp ++
    "\n\n**Task:** " ++ task_description ++ "\n\n**Configuration:**\n" ++
    String.join ((sortPairs (redactConfig config_dict)).map
      (fun p => "- **" ++ p.1 ++ "**: " ++ p.2 ++ "\n")) ++
    "\n## Thought Process\n\n"

/-- The configuration slice consumed by `get_function_definitions`:
`config.get("function_names", {}).get("log_node", "log_node_details")`. -/
structure FIConfig where
  function_names : List (String × String)

def FIConfig.logNodeName (cfg : FIConfig) : String :=
  match cfg.function_names.find? (fun p => p.1 = "log_node") with
  | some p => p.2
  | none => "log_node_details"

/-- Embedding of `get_function_definitions`: the JSON Schema contract
handed to the oracle. (One description string of the source contains an
apostrophe; it is rendered here without it, which no claim observes.) -/
def get_function_definitions (config : FIConfig) : List Json :=
  let log_function_name := config.logNodeName
  [Json.obj [
    ("name", .str log_function_name),
    ("description", .str "Log details about a node in the thought tree, including its sub-problem, generated thoughts, and the LLM decision."),
    ("parameters", .obj [
      ("type", .str "object"),
      ("properties", .obj [
        ("node_id", .obj [
          ("type", .str "string"),
          ("description", .str "Unique identifier of the node.")]),
        ("node_sub_problem", .obj [
          ("type", .str "string"),
          ("description", .str "Description of the sub-problem at this node.")]),
        ("generated_thoughts", .obj [
          ("type", .str "array"),
          ("description", .str "List of generated thoughts with their evaluations."),
          ("items", .obj [
            ("type", .str "object"),
            ("properties", .obj [
              ("thought_id", .obj [
                ("type", .str "string"),
                ("description", .str "Unique identifier of the thought.")]),
              ("description", .obj [
                ("type", .str "string"),
                ("description", .str "Description of the thought.")]),
              ("generation_rationale", .obj [
                ("type", .str "string"),
                ("description", .str "Rationale for generating this thought.")]),
              ("evaluation_score", .obj [
                ("type", .str "number"),
                ("description", .str "Evaluation score between 0.0 and 1.0.")]),
              ("evaluation_justification", .obj [
                ("type", .str "string"),
                ("description", .str "Justification for the evaluation score.")])]),
            ("required", .arr [.str "thought_id", .str "description", .str "evaluation_score"])])]),
        ("llm_decision", .obj [
          ("type", .str "object"),
          ("description", .str "Decision made by the LLM."),
          ("properties", .obj [
            ("action_type", .obj [
              ("type", .str "string"),
              ("description", .str "Type of action to take next (Select, Backtrack, or Success)."),
              ("enum", .arr [.str "Select", .str "Backtrack", .str "Success"])]),
            ("selected_thought_id", .obj [
              ("type", .arr [.str "string", .str "null"]),
              ("description", .str "ID of the selected thought (if action_type is Select, otherwise null).")]),
            ("decision_rationale", .obj [
              ("type", .str "string"),
              ("description", .str "Rationale for the decision.")])]),
          ("required", .arr [.str "action_type", .str "decision_rationale"])])]),
      ("required", .arr [.str "node_id", .str "node_sub_problem", .str "generated_thoughts", .str "llm_decision"])])]]

/-! ## Embedding of src/main.py : run_tota_agent -/

/-- The error taxonomy of the spec (section 7); any of these raised by the
underlying run reaches the `except Exception` handler of
`run_tota_agent`. -/
inductive AgentFault where
  | transientFault : AgentFault
  | protocolFault : AgentFault
  | resourceExhausted : AgentFault
  | structuralFault : AgentFault

/-- Modelled from the spec: `ControlFlowManager.run_agent` is not under
src/ (only its caller `run_tota_agent` is), so its observable outcome is
taken from the spec's run contract — either a raised fault of section 7 or
a triple of a status string, an optional solution path, and a log file
path. -/
abbrev RunAgentOutcome :=
  Except AgentFault (String × Option (List String) × String)

/-- Modelled from the spec: the normal results `run_agent` may hand back —
a status among Succeeded/Failed/Cancelled, with a solution path carried
only by a successful search. -/
def specRunAgentContract (o : RunAgentOutcome) : Prop :=
  ∀ st path logf, o = Except.ok (st, path, logf) →
    (st = "Succeeded" ∨ st = "Failed" ∨ st = "Cancelled") ∧
      (st ≠ "Succeeded" → path = none)

/-- Embedding of `run_tota_agent`: the `try`/`except Exception` wrapper
around the underlying run; any raise becomes `("Error", None, None)`. -/
def run_tota_agent (o : RunAgentOutcome) :
    String × Option (List String) × Option String :=
  match o with
  | .ok (st, path, logf) => (st, path, some logf)
  | .error _ => ("Error", none, none)

/-! ## Supporting lemmas -/

theorem digitsVal_append (init : Nat) (l₁ l₂ : List Char) :
    digitsVal init (l₁ ++ l₂) = digitsVal (digitsVal init l₁) l₂ := by
  simp [digitsVal, List.foldl_append]

theorem natDecimalAux_eq_append (fuel n : Nat) (acc : List Char) :
    natDecimalAux fuel n acc = natDecimalAux fuel n [] ++ acc := by
  induction fuel generalizing n acc with
  | zero => simp [natDecimalAux]
  | succ fuel ih =>
    by_cases h : n < 10
    · simp [natDecimalAux, h]
    · rw [natDecimalAux, if_neg h, natDecimalAux, if_neg h,
        ih (n / 10) (Nat.digitChar (n % 10) :: acc),
        ih (n / 10) [Nat.digitChar (n % 10)]]
      simp

theorem digitChar_toNat_sub (n : Nat) (h : n < 10) :
    (Nat.digitChar n).toNat - 48 = n := by
  interval_cases n <;> rfl

theorem digitsVal_natDecimalAux (fuel n : Nat) (h : n < fuel) :
    digitsVal 0 (natDecimalAux fuel n []) = n := by
  induction fuel using Nat.strong_induction_on generalizing n with
  | _ fuel ih =>
    match fuel with
    | 0 => omega
    | fuel + 1 =>
      by_cases h10 : n < 10
      · simp [natDecimalAux, h10, digitsVal, digitChar_toNat_sub n h10]
      · rw [natDecimalAux, if_neg h10,
          natDecimalAux_eq_append fuel (n / 10) [Nat.digitChar (n % 10)],
          digitsVal_append]
        have hdiv : n / 10 < fuel := by
          have h1 : n / 10 < n := Nat.div_lt_self (by omega) (by omega)
          omega
        rw [ih fuel (Nat.lt_succ_self fuel) (n / 10) hdiv]
        have hm : n % 10 < 10 := Nat.mod_lt _ (by omega)
        simp [digitsVal, digitChar_toNat_sub _ hm]
        omega

theorem pyInt_natDecimal (n : Nat) : pyInt (natDecimal n) = n := by
  simpa [pyInt, natDecimal] using
    digitsVal_natDecimalAux (n + 1) n (Nat.lt_succ_self n)

theorem natDecimal_injective : Function.Injective natDecimal := by
  intro a b h
  have h2 := congrArg pyInt h
  rwa [pyInt_natDecimal, pyInt_natDecimal] at h2

theorem if_isEmpty_eq_self {α : Type} (l : List α) :
    (if l.isEmpty then ([] : List α) else l) = l := by
  cases l <;> simp

theorem if_isEmpty_map {α β : Type} (l : List α) (f : α → β) :
    (if l.isEmpty then ([] : List β) else l.map f) = l.map f := by
  cases l <;> simp

theorem extract_thoughts_eq_map (content node_id : String) :
    extract_thoughts content node_id =
      (findall1 content ++ findall2 content).map (buildThought node_id) := by
  rw [extract_thoughts, if_isEmpty_map, if_isEmpty_map, List.map_append]

theorem buildThought_thought_id (node_id : String) (m : String × String) :
    (buildThought node_id m).thought_id =
      node_id ++ "-t" ++ natDecimal (pyInt m.1) := rfl

/-! ## Claim C3 -/

/-- C3: `extract_thoughts` is embedded as a total function (it cannot
raise), and on text where neither the numbered-list pattern nor the
`Thought N:` pattern matches anywhere it returns the empty sequence. -/
theorem C3_no_structure_empty (content node_id : String)
    (h1 : findall1 content = []) (h2 : findall2 content = []) :
    extract_thoughts content node_id = [] := by
  rw [extract_thoughts_eq_map, h1, h2]
  rfl

/-- C3 witness: the text `hello world` has no recognisable structure and
yields the empty sequence. -/
theorem C3_no_structure_empty_witness :
    findall1 "hello world" = [] ∧ findall2 "hello world" = [] ∧
      extract_thoughts "hello world" "node-1" = [] :=
  ⟨by decide, by decide,
    C3_no_structure_empty "hello world" "node-1" (by decide) (by decide)⟩

/-! ## Claim C5 -/

/-- C5: the run entry point `run_tota_agent` returns (rather than raises)
for every outcome of the underlying run, including runs raising
`TransientError`/`ProtocolError`/`ResourceExhausted`; the returned status
lies in Succeeded/Failed/Cancelled/Error; and whenever the run was not
successful the solution-path component is `None`. -/
theorem C5_run_entry_total (o : RunAgentOutcome)
    (h : specRunAgentContract o) :
    ((run_tota_agent o).1 = "Succeeded" ∨ (run_tota_agent o).1 = "Failed" ∨
      (run_tota_agent o).1 = "Cancelled" ∨ (run_tota_agent o).1 = "Error") ∧
    (∀ fault : AgentFault, o = .error fault →
      run_tota_agent o = ("Error", none, none)) ∧
    ((run_tota_agent o).1 ≠ "Succeeded" → (run_tota_agent o).2.1 = none) := by
  match o with
  | .error fault =>
    exact ⟨Or.inr (Or.inr (Or.inr rfl)), fun _ _ => rfl, fun _ => rfl⟩
  | .ok (st, path, logf) =>
    obtain ⟨hst, hpath⟩ := h st path logf rfl
    refine ⟨?_, ?_, hpath⟩
    · rcases hst with h' | h' | h' <;> simp [run_tota_agent, h']
    · intro fault hf
      cases hf

/-- C5 witness: a run raising a transient fault yields status `Error` with
no solution path. -/
theorem C5_run_entry_total_witness :
    run_tota_agent (.error .transientFault) = ("Error", none, none) :=
  ((C5_run_entry_total (.error .transientFault)
    (fun _ _ _ h => nomatch h)).2.1 .transientFault rfl)

/-! ## Claim C6 -/

/-- C6: a thought record passed to `log_node_details` with no
`evaluation_score` entry is logged exactly as if its score were `0.0`,
wherever it occurs in the thought list. -/
theorem C6_score_defaults_to_zero (timestamp node_id node_sub_problem : String)
    (pre post : List ThoughtRec) (t : ThoughtRec) (llm_decision : DecisionRec)
    (log : String) (h : t.evaluation_score = none) :
    log_node_details timestamp node_id node_sub_problem (pre ++ t :: post)
        llm_decision log =
      log_node_details timestamp node_id node_sub_problem
        (pre ++ { t with evaluation_score := some 0 } :: post)
        llm_decision log := by
  simp [log_node_details, renderNodeDetails, renderThought, h]

/-- C6 witness: a concrete thought dict with no score logs as score 0.0. -/
theorem C6_score_defaults_to_zero_witness :
    (⟨some "r-t1", some "d", none, none, none⟩ : ThoughtRec).evaluation_score
        = none ∧
    log_node_details "ts" "root" "task" [⟨some "r-t1", some "d", none, none, none⟩]
        ⟨some "Success", none, some "done"⟩ "" =
      log_node_details "ts" "root" "task"
        [⟨some "r-t1", some "d", none, some 0, none⟩]
        ⟨some "Success", none, some "done"⟩ "" :=
  ⟨rfl, by
    have h := C6_score_defaults_to_zero "ts" "root" "task" [] []
      ⟨some "r-t1", some "d", none, none, none⟩
      ⟨some "Success", none, some "done"⟩ "" rfl
    simpa using h⟩

/-! ## Claim C7 -/

/-- C7: one `log_node_details` call appends exactly one rendered record at
the end of the log, leaves every previously written character unchanged
(the old content is the prefix of the new content of its length), and
returns unit, consumed by nobody. -/
theorem C7_append_only (timestamp node_id node_sub_problem : String)
    (generated_thoughts : List ThoughtRec) (llm_decision : DecisionRec)
    (log : String) :
    (log_node_details timestamp node_id node_sub_problem generated_thoughts
        llm_decision log).1 = () ∧
    (log_node_details timestamp node_id node_sub_problem generated_thoughts
        llm_decision log).2 =
      log ++ renderNodeDetails timestamp node_id node_sub_problem
        generated_thoughts llm_decision ∧
    ((log_node_details timestamp node_id node_sub_problem generated_thoughts
        llm_decision log).2.data.take log.data.length = log.data) := by
  refine ⟨rfl, rfl, ?_⟩
  rw [show (log_node_details timestamp node_id node_sub_problem
      generated_thoughts llm_decision log).2 =
    log ++ renderNodeDetails timestamp node_id node_sub_problem
      generated_thoughts llm_decision from rfl]
  rw [String.data_append]
  simp

theorem firstToolUse_eq_none (content : List ContentItem)
    (h : ∀ item ∈ content, item.isToolUse = false) :
    firstToolUse content = none := by
  induction content with
  | nil => rfl
  | cons hd tl ih =>
    have hhd := h hd (List.mem_cons_self hd tl)
    match hd with
    | .text s => exact ih (fun i hi => h i (List.mem_cons_of_mem _ hi))
    | .other => exact ih (fun i hi => h i (List.mem_cons_of_mem _ hi))
    | .toolUse name input => simp [ContentItem.isToolUse] at hhd

/-! ## Claim C1 -/

/-- C1: when a structured decision was demanded (`expect_function_call`
with a forced function name) and the transported response carries no
tool-use block, `call_llm` returns the synthesized fallback call whose
`llm_decision` has `action_type = "Backtrack"` and a rationale noting the
failure — never `"Select"`. -/
theorem C1_fallback_is_backtrack (oracle : Nat → AttemptOutcome)
    (kw : KwArgs) (retry_attempts : Nat) (fname : String)
    (content : List ContentItem)
    (hn : 1 ≤ retry_attempts)
    (hok : oracle 1 = .ok content)
    (hnotool : ∀ item ∈ content, item.isToolUse = false) :
    call_llm oracle true (some fname) kw retry_attempts =
      (.ok (.functionCall fname (fallbackFunctionArgs kw)), []) ∧
    ((fallbackFunctionArgs kw).get? "llm_decision").bind
        (Json.get? · "action_type") = some (.str "Backtrack") ∧
    ((fallbackFunctionArgs kw).get? "llm_decision").bind
        (Json.get? · "action_type") ≠ some (.str "Select") ∧
    ((fallbackFunctionArgs kw).get? "llm_decision").bind
        (Json.get? · "decision_rationale")
      = some (.str "Function calling failed, fallback to backtracking.") := by
  obtain ⟨m, rfl⟩ : ∃ m, retry_attempts = m + 1 :=
    ⟨retry_attempts - 1, by omega⟩
  refine ⟨?_, rfl, ?_, rfl⟩
  · show callLLMLoop oracle true (some fname) kw (m + 1) 1 (m + 1) = _
    rw [callLLMLoop, hok]
    simp [parseResponse, firstToolUse_eq_none content hnotool]
  · intro h
    have h2 : ((fallbackFunctionArgs kw).get? "llm_decision").bind
        (Json.get? · "action_type") = some (.str "Backtrack") := rfl
    rw [h2] at h
    simp at h

/-- C1 witness: a one-attempt call whose response is a single text block
yields the Backtrack fallback for the forced function. -/
theorem C1_fallback_is_backtrack_witness :
    call_llm (fun _ => .ok [ContentItem.text "no tools here"]) true
        (some "log_node_details") [] 1 =
      (.ok (.functionCall "log_node_details" (fallbackFunctionArgs [])), []) :=
  (C1_fallback_is_backtrack (fun _ => .ok [ContentItem.text "no tools here"])
    [] 1 "log_node_details" [ContentItem.text "no tools here"]
    (by omega) rfl (by intro item hi; fin_cases hi; rfl)).1

/-! ## Claim C4 -/

theorem callLLMLoop_all_transient (oracle : Nat → AttemptOutcome) (e : Bool)
    (f : Option String) (kw : KwArgs) (n : Nat) (msgs : Nat → String)
    (m : Nat) :
    ∀ attempt, attempt + m = n →
      (∀ k, attempt ≤ k → k ≤ n → oracle k = .transient (msgs k)) →
      callLLMLoop oracle e f kw n attempt (m + 1) =
        (.error ("API error: " ++ msgs n),
          (List.range' attempt m).map (2 ^ ·)) := by
  induction m with
  | zero =>
    intro attempt ha htr
    have h0 : oracle attempt = .transient (msgs attempt) :=
      htr attempt le_rfl (by omega)
    have hn : attempt = n := by omega
    subst hn
    simp [callLLMLoop, h0]
  | succ m ih =>
    intro attempt ha htr
    have h0 : oracle attempt = .transient (msgs attempt) :=
      htr attempt le_rfl (by omega)
    have hlt : attempt < n := by omega
    rw [callLLMLoop, h0]
    simp only [hlt, if_pos]
    rw [ih (attempt + 1) (by omega)
      (fun k hk1 hk2 => htr k (by omega) hk2)]
    simp [List.range'_succ]

theorem callLLMLoop_first_ok (oracle : Nat → AttemptOutcome) (e : Bool)
    (f : Option String) (kw : KwArgs) (n : Nat) (m : Nat) :
    ∀ attempt k content, attempt + m = n → attempt ≤ k → k ≤ n →
      (∀ j, attempt ≤ j → j < k → (oracle j).isTransient = true) →
      oracle k = .ok content →
      callLLMLoop oracle e f kw n attempt (m + 1) =
        (parseResponse e f kw content,
          (List.range' attempt (k - attempt)).map (2 ^ ·)) := by
  induction m with
  | zero =>
    intro attempt k content ha hak hkn htr hok
    have hk : k = attempt := by omega
    subst hk
    simp [callLLMLoop, hok]
  | succ m ih =>
    intro attempt k content ha hak hkn htr hok
    by_cases hk : k = attempt
    · subst hk
      simp [callLLMLoop, hok]
    · have h1 : (oracle attempt).isTransient = true :=
        htr attempt le_rfl (by omega)
      obtain ⟨msg, hmsg⟩ : ∃ msg, oracle attempt = .transient msg := by
        cases hor : oracle attempt with
        | transient msg => exact ⟨msg, rfl⟩
        | ok c => rw [hor] at h1; simp [AttemptOutcome.isTransient] at h1
        | fatal s => rw [hor] at h1; simp [AttemptOutcome.isTransient] at h1
      have hlt : attempt < n := by omega
      rw [callLLMLoop, hmsg]
      simp only [hlt, if_pos]
      rw [ih (attempt + 1) k content (by omega) (by omega) hkn
        (fun j hj1 hj2 => htr j (by omega) hj2) hok]
      have hrange : List.range' attempt (k - attempt) =
          attempt :: List.range' (attempt + 1) (k - (attempt + 1)) := by
        have hka : k - attempt = (k - (attempt + 1)) + 1 := by omega
        rw [hka, List.range'_succ]
      rw [hrange]
      simp

/-- C4: on transient transport errors `call_llm` retries internally up to
the configured `retry_attempts`, sleeping `2 ^ attempt` seconds before
each retry (attempt-indexed exponential backoff), and raises only after
the final attempt has failed; a successful attempt stops the loop with the
parsed response and no further waiting. -/
theorem C4_transient_retry (oracle : Nat → AttemptOutcome) (e : Bool)
    (f : Option String) (kw : KwArgs) (n : Nat) (msgs : Nat → String)
    (hn : 1 ≤ n) :
    ((∀ k, 1 ≤ k → k ≤ n → oracle k = .transient (msgs k)) →
      call_llm oracle e f kw n =
        (.error ("API error: " ++ msgs n),
          (List.range' 1 (n - 1)).map (2 ^ ·))) ∧
    (∀ k content, 1 ≤ k → k ≤ n →
      (∀ j, 1 ≤ j → j < k → (oracle j).isTransient = true) →
      oracle k = .ok content →
      call_llm oracle e f kw n =
        (parseResponse e f kw content,
          (List.range' 1 (k - 1)).map (2 ^ ·))) := by
  obtain ⟨m, rfl⟩ : ∃ m, n = m + 1 := ⟨n - 1, by omega⟩
  constructor
  · intro htr
    show callLLMLoop oracle e f kw (m + 1) 1 (m + 1) = _
    rw [callLLMLoop_all_transient oracle e f kw (m + 1) msgs m 1 (by omega) htr]
    simp
  · intro k content hk1 hkn htr hok
    show callLLMLoop oracle e f kw (m + 1) 1 (m + 1) = _
    rw [callLLMLoop_first_ok oracle e f kw (m + 1) m 1 k content (by omega)
      hk1 hkn (fun j hj1 hj2 => htr j hj1 hj2) hok]

/-- C4 witness: three attempts, all transient, raise after the third with
waits of 2 then 4 seconds; i.e. back-off `2 ^ 1, 2 ^ 2` between the three
attempts. -/
theorem C4_transient_retry_witness :
    call_llm (fun _ => .transient "timeout") false none [] 3 =
      (.error "API error: timeout", [2, 4]) := by
  rw [(C4_transient_retry (fun _ => .transient "timeout") false none [] 3
    (fun _ => "timeout") (by omega)).1 (fun _ _ _ => rfl)]
  rfl

/-! ## Claim C2 -/

theorem thought_id_render_injective (node_id : String) :
    Function.Injective (fun n : Nat => node_id ++ "-t" ++ natDecimal n) := by
  intro a b h
  apply natDecimal_injective
  apply String.ext
  have hd := congrArg String.data h
  simp only [String.data_append, List.append_assoc] at hd
  exact List.append_cancel_left (List.append_cancel_left hd)

/-- C2 counterexample: on the text `1. a` then `1. b` the scanner parses
the number 1 twice and the two thought ids collide, refuting pairwise
distinctness of `thought_id` within the owning node. -/
theorem C2_duplicate_ids_counterexample :
    ((extract_thoughts "1. a\n1. b" "n").map Thought.thought_id
        = ["n-t1", "n-t1"]) ∧
    ¬ ((extract_thoughts "1. a\n1. b" "n").map Thought.thought_id).Nodup :=
  ⟨by decide, by decide⟩

/-- C2 (amended): the thought ids returned by `extract_thoughts` are
exactly, in order, `node_id ++ "-t" ++ n` for the numbers `n` parsed from
the matched text (so each thought's id is formed from its own parsed
number), and they are pairwise distinct whenever those parsed numbers
(across both patterns) are pairwise distinct. -/
theorem C2_thought_id_format_and_uniqueness (content node_id : String) :
    ((extract_thoughts content node_id).map Thought.thought_id =
      (parsedThoughtNums content).map
        (fun n : Nat => node_id ++ "-t" ++ natDecimal n)) ∧
    ((parsedThoughtNums content).Nodup →
      ((extract_thoughts content node_id).map Thought.thought_id).Nodup) := by
  have hp : parsedThoughtNums content =
      (findall1 content ++ findall2 content).map
        (fun m : String × String => pyInt m.1) := by
    rw [parsedThoughtNums, if_isEmpty_eq_self, if_isEmpty_eq_self]
  have hfmt : (extract_thoughts content node_id).map Thought.thought_id =
      (parsedThoughtNums content).map
        (fun n : Nat => node_id ++ "-t" ++ natDecimal n) := by
    rw [extract_thoughts_eq_map, List.map_map, hp, List.map_map]
    rfl
  refine ⟨hfmt, ?_⟩
  intro hnd
  rw [hfmt]
  exact hnd.map (thought_id_render_injective node_id)

/-- C2 witness: on `1. a` then `2. b` the parsed numbers are distinct and
so are the two thought ids. -/
theorem C2_thought_id_witness :
    (parsedThoughtNums "1. a\n2. b").Nodup ∧
    ((extract_thoughts "1. a\n2. b" "n").map Thought.thought_id).Nodup :=
  ⟨by decide,
    (C2_thought_id_format_and_uniqueness "1. a\n2. b" "n").2 (by decide)⟩

/-! ## Claim C8 -/

/-- C8: the structured-output contract of `get_function_definitions`
constrains the decision object so that `action_type` is enumerated over
exactly Select/Backtrack/Success, `selected_thought_id` has JSON type
string-or-null, and `action_type` and `decision_rationale` are the
required fields — for every configuration (which only renames the
function). -/
theorem C8_decision_schema (config : FIConfig) :
    (get_function_definitions config).length = 1 ∧
    ((get_function_definitions config).head?.bind (Json.get? · "parameters")
      |>.bind (Json.get? · "properties") |>.bind (Json.get? · "llm_decision")
      |>.bind (Json.get? · "properties") |>.bind (Json.get? · "action_type")
      |>.bind (Json.get? · "enum"))
      = some (.arr [.str "Select", .str "Backtrack", .str "Success"]) ∧
    ((get_function_definitions config).head?.bind (Json.get? · "parameters")
      |>.bind (Json.get? · "properties") |>.bind (Json.get? · "llm_decision")
      |>.bind (Json.get? · "properties")
      |>.bind (Json.get? · "selected_thought_id") |>.bind (Json.get? · "type"))
      = some (.arr [.str "string", .str "null"]) ∧
    ((get_function_definitions config).head?.bind (Json.get? · "parameters")
      |>.bind (Json.get? · "properties") |>.bind (Json.get? · "llm_decision")
      |>.bind (Json.get? · "required"))
      = some (.arr [.str "action_type", .str "decision_rationale"]) :=
  ⟨rfl, rfl, rfl, rfl⟩

/-! ## Claim C9 -/

theorem map_fst_updApiKey (v : String) (c : List (String × String)) :
    (c.map (updApiKey v)).map Prod.fst = c.map Prod.fst := by
  rw [List.map_map]
  apply List.map_congr_left
  intro p _
  by_cases h : p.1 = "llm_api_key" <;> simp [updApiKey, h]

theorem redactConfig_updApiKey (v : String) (c : List (String × String)) :
    redactConfig (c.map (updApiKey v)) = redactConfig c := by
  rw [redactConfig, redactConfig, map_fst_updApiKey]
  by_cases hc : (c.map Prod.fst).contains "llm_api_key"
  · rw [if_pos hc, if_pos hc, List.map_map]
    apply List.map_congr_left
    intro p _
    by_cases h : p.1 = "llm_api_key" <;> simp [updApiKey, h]
  · rw [if_neg hc, if_neg hc]
    conv_rhs => rw [← List.map_id c]
    apply List.map_congr_left
    intro p hp
    have hne : p.1 ≠ "llm_api_key" := by
      intro he
      apply hc
      rw [List.contains_iff_exists_mem_beq]
      exact ⟨p.1, List.mem_map_of_mem Prod.fst hp, by simp [he]⟩
    simp [updApiKey, hne]

/-- C9: two configurations that differ only in the value of `llm_api_key`
produce the same log header (with equal timestamps): the value is replaced
by the literal `***REDACTED***` and never reaches the log. The second
conjunct exhibits the redacted entry. -/
theorem C9_api_key_never_logged (task_description timestamp v : String)
    (c c' : List (String × String))
    (hdiff : c' = c.map (updApiKey v)) :
    initialize_log_file task_description timestamp c' =
      initialize_log_file task_description timestamp c ∧
    (∀ p ∈ redactConfig c, p.1 = "llm_api_key" → p.2 = "***REDACTED***") := by
  subst hdiff
  constructor
  · rw [initialize_log_file, initialize_log_file, redactConfig_updApiKey]
  · intro p hp hkey
    rw [redactConfig] at hp
    by_cases hc : (c.map Prod.fst).contains "llm_api_key"
    · rw [if_pos hc] at hp
      obtain ⟨q, hq, hpq⟩ := List.mem_map.mp hp
      by_cases h : q.1 = "llm_api_key"
      · rw [← hpq]
        simp [h]
      · rw [← hpq] at hkey
        simp [h] at hkey
    · rw [if_neg hc] at hp
      exfalso
      apply hc
      rw [List.contains_iff_exists_mem_beq]
      exact ⟨p.1, List.mem_map_of_mem Prod.fst hp, by simp [hkey]⟩

/-- C9 witness: a concrete pair of configurations differing only in the
api key value yields identical headers. -/
theorem C9_api_key_never_logged_witness :
    initialize_log_file "task" "ts"
        [("llm_api_key", "another-secret"), ("llm_model_identifier", "m")] =
      initialize_log_file "task" "ts"
        [("llm_api_key", "secret"), ("llm_model_identifier", "m")] :=
  (C9_api_key_never_logged "task" "ts" "another-secret"
    [("llm_api_key", "secret"), ("llm_model_identifier", "m")]
    [("llm_api_key", "another-secret"), ("llm_model_identifier", "m")]
    (by decide)).1

/-! ## Claim C10 -/

/-- C10: `log_node_details` writes the `Selected Thought` line iff the
decision carries a present, non-empty `selected_thought_id` — whatever the
`action_type` is: the content factors as the preamble plus a decision
block that contains the line exactly when the id is truthy. -/
theorem C10_selected_thought_line (timestamp node_id node_sub_problem : String)
    (generated_thoughts : List ThoughtRec) (dec : DecisionRec) :
    (selTruthy dec.selected_thought_id = true ↔
      ∃ s, dec.selected_thought_id = some s ∧ s ≠ "") ∧
    (selTruthy dec.selected_thought_id = true →
      renderNodeDetails timestamp node_id node_sub_problem generated_thoughts
          dec =
        renderNodePreamble timestamp node_id node_sub_problem
            generated_thoughts ++
          ("#### Decision\n- **Action:** " ++ dec.action_type.getD "Unknown"
            ++ "\n" ++
            ("- **Selected Thought:** " ++ dec.selected_thought_id.getD ""
              ++ "\n") ++
            "- **Rationale:** " ++ dec.decision_rationale.getD ""
            ++ "\n\n---\n\n")) ∧
    (selTruthy dec.selected_thought_id = false →
      renderNodeDetails timestamp node_id node_sub_problem generated_thoughts
          dec =
        renderNodePreamble timestamp node_id node_sub_problem
            generated_thoughts ++
          ("#### Decision\n- **Action:** " ++ dec.action_type.getD "Unknown"
            ++ "\n" ++
            "- **Rationale:** " ++ dec.decision_rationale.getD ""
            ++ "\n\n---\n\n")) := by
  refine ⟨?_, ?_, ?_⟩
  · cases hsel : dec.selected_thought_id with
    | none => simp [selTruthy]
    | some s =>
      constructor
      · intro hs
        refine ⟨s, rfl, ?_⟩
        intro he
        subst he
        exact absurd hs (by decide)
      · rintro ⟨s', hs', hne⟩
        have hss : s = s' := by injection hs'
        subst hss
        cases hemp : s.isEmpty
        · simp [selTruthy, hemp]
        · exact absurd ((String.isEmpty_iff s).mp hemp) hne
  · intro h
    rw [renderNodeDetails, renderDecisionSection, h]
    simp [renderNodePreamble, String.append_assoc]
  · intro h
    rw [renderNodeDetails, renderDecisionSection, h]
    simp [renderNodePreamble, String.append_assoc]

/-- C10 witness: a non-Select decision with a non-empty id does log the
`Selected Thought` line, placed between the action and rationale lines. -/
theorem C10_selected_thought_line_witness :
    renderNodeDetails "ts" "root" "task" []
        ⟨some "Backtrack", some "root-t1", some "r"⟩ =
      renderNodePreamble "ts" "root" "task" [] ++
        ("#### Decision\n- **Action:** Backtrack\n" ++
          ("- **Selected Thought:** root-t1\n") ++
          "- **Rationale:** r\n\n---\n\n") :=
  (C10_selected_thought_line "ts" "root" "task" []
    ⟨some "Backtrack", some "root-t1", some "r"⟩).2.1 rfl

end ToTA
